import Mathlib

/-
Verification of the AionUi conversation/task orchestration core.

Shallow embedding of the conversation bridge providers (initConversationBridge),
the Gemini task manager (GeminiAgentManager) and the Gemini agent
(GeminiAgent) from the source.  Collaborators that the repository uses but
whose code is not part of the source tree here (WorkerManage, the
BaseAgentManager base class, the chatLib message helpers and the stream/tool
utilities) are modelled from the specification; each such definition carries a
doc comment starting with "Modelled from the spec:".
-/

namespace AionUi

/-! ## Conversation history injection (GeminiAgentManager.injectHistoryFromDatabase) -/

/-- A persisted chat message row as read back by getConversationMessages:
its type tag, originator side and textual content. -/
structure StoredMessage where
  mtype : String
  position : String
  content : String
  deriving DecidableEq, Repr

/-- One line of the injected history, as built in injectHistoryFromDatabase:
the originator label derived from the message position, then the content. -/
def messageLine (m : StoredMessage) : String :=
  (if m.position = "right" then "User" else "Assistant") ++ ": " ++ m.content

/-- JavaScript Array.prototype.slice with a negative index: the last up to n
elements of the list. -/
def sliceLastN (n : Nat) (xs : List α) : List α :=
  xs.drop (xs.length - n)

/-- JavaScript String.prototype.slice with a negative index: the last up to n
characters of the string. -/
def strSliceLast (n : Nat) (s : String) : String :=
  String.mk (s.data.drop (s.data.length - n))

/-- The history text built by GeminiAgentManager.injectHistoryFromDatabase
(also re-run verbatim by reloadContext): keep the text-typed messages, take
the last 20, render each as a line, join with newlines and keep the last
4000 characters. -/
def injectHistoryText (msgs : List StoredMessage) : String :=
  strSliceLast 4000
    (String.intercalate "\n"
      ((sliceLastN 20 (msgs.filter (fun m => m.mtype == "text"))).map messageLine))

/-! ## Task status and the event interception pipeline
(BaseAgentManager / GeminiAgentManager.init) -/

/-- The status state machine of a live task. -/
inductive ChatStatus where
  | pending
  | running
  | finished
  | error
  deriving DecidableEq, Repr

/-- A backend-emitted stream event: type tag, payload, originating message id
and the conversation id annotation added by the interceptor. -/
structure Ev where
  etype : String
  edata : String
  msg_id : String
  conversation_id : Option String
  deriving DecidableEq, Repr

/-- Modelled from the spec: the BaseAgentManager event interceptor (the class
is not part of the sources here) marks the task status error on an unhandled
error-typed event. -/
def baseInterceptStatus (s : ChatStatus) (etype : String) : ChatStatus :=
  if etype == "error" then ChatStatus.error else s

/-- Status update of the GeminiAgentManager.init handler: a finish event sets
status finished, a start event sets status running. -/
def geminiInterceptStatus (s : ChatStatus) (etype : String) : ChatStatus :=
  let s1 := if etype == "finish" then ChatStatus.finished else s
  if etype == "start" then ChatStatus.running else s1

/-- Combined status update applied by the interception chain for one event. -/
def interceptStatus (s : ChatStatus) (etype : String) : ChatStatus :=
  geminiInterceptStatus (baseInterceptStatus s etype) etype

/-- A message record as persisted by the message layer. -/
structure TMessage where
  id : String
  mtype : String
  conversation_id : String
  content : String
  deriving DecidableEq, Repr

/-- Modelled from the spec: transformMessage of the chatLib module (not part
of the sources here).  Start and finish events update only status and yield
no message; every other event kind is converted to a message keyed by the
event message id. -/
def transformMessage (e : Ev) : Option TMessage :=
  if e.etype == "start" || e.etype == "finish" then none
  else some { id := e.msg_id, mtype := e.etype,
              conversation_id := e.conversation_id.getD "", content := e.edata }

/-- Observable actions of the task layer, in program order. -/
inductive Action where
  | persistUser (msg_id : String)
  | setStatus (s : ChatStatus)
  | persistMessage (conversation_id : String) (m : TMessage)
  | streamEvent (e : Ev)
  | localFlush
  | rejectCaller
  deriving DecidableEq, Repr

/-- The gemini.message handler installed by GeminiAgentManager.init, combined
with the base interception: update the status from the event type, annotate
the event with the conversation id, persist the transformed message unless
the event is a transient thought, then republish the annotated event to the
stream bus.  Returns the new status and the emitted actions in order. -/
def handleGeminiMessage (cid : String) (s : ChatStatus) (e : Ev) : ChatStatus × List Action :=
  let s1 := interceptStatus s e.etype
  let e1 : Ev := { e with conversation_id := some cid }
  let persists :=
    if e.etype == "thought" then []
    else
      match transformMessage e1 with
      | some m => [Action.persistMessage cid m]
      | none => []
  (s1, Action.setStatus s1 :: persists ++ [Action.streamEvent e1])

/-- Whether an action is an error-typed stream-bus event. -/
def isErrorStreamEvent (a : Action) : Bool :=
  match a with
  | Action.streamEvent e => e.etype == "error"
  | _ => false

/-- Whether an action persists a message. -/
def isPersistAction (a : Action) : Bool :=
  match a with
  | Action.persistMessage _ _ => true
  | _ => false

/-- GeminiAgentManager.sendMessage on the path where the bootstrap promise
rejects: the outgoing user message is persisted, status is set pending, the
rejected bootstrap is caught and an error-typed event tagged with the send
message id is emitted through the gemini.message handler, then
nextTickToLocalFinish waits for the local persistence flush before the
caller promise is rejected.  (nextTickToLocalFinish is modelled from the
spec as completing only after the error message has been recorded locally.) -/
def sendMessageBootstrapFailure (cid : String) (msg_id : String) (errText : String) :
    List Action :=
  let errEv : Ev := { etype := "error", edata := errText, msg_id := msg_id,
                      conversation_id := none }
  let handled := handleGeminiMessage cid ChatStatus.pending errEv
  Action.persistUser msg_id :: Action.setStatus ChatStatus.pending ::
    handled.2 ++ [Action.localFlush, Action.rejectCaller]

/-! ## Registry and the conversation bridge providers -/

/-- A live task as seen by the bridge providers: its type discriminant. -/
structure WTask where
  ttype : String
  deriving DecidableEq, Repr

/-- The registry table from conversation id to live task. -/
abbrev Registry := List (String × WTask)

/-- Modelled from the spec: WorkerManage.getTaskById (the registry module is
not part of the sources here) is a pure lookup with no side effect. -/
def getTaskById (reg : Registry) (id : String) : Option WTask :=
  (reg.find? (fun p => p.1 == id)).map (fun p => p.2)

/-- Modelled from the spec: WorkerManage.kill cancels the task in-flight
operation and removes it from the registry. -/
def killTask (reg : Registry) (id : String) : Registry :=
  reg.filter (fun p => !(p.1 == id))

/-- Modelled from the spec: WorkerManage.getTaskByIdRollbackBuild returns the
live task if one is registered, otherwise loads the conversation from the
store (here abstracted to its type, or none when the store has no record)
and builds and registers a task for it; a store miss yields no task. -/
def getTaskByIdRollbackBuild (reg : Registry) (stored : Option String) (id : String) :
    Option WTask × Registry :=
  match getTaskById reg id with
  | some t => (some t, reg)
  | none =>
    match stored with
    | some ctype => ((some { ttype := ctype } : Option WTask), (id, { ttype := ctype }) :: reg)
    | none => (none, reg)

/-- The uniform request/response envelope of the bridge. -/
structure Envelope where
  success : Bool
  msg : Option String
  deriving DecidableEq, Repr

/-- The conversation.stop provider: a missing task yields a success envelope,
a task of an unsupported type a failure envelope, otherwise the task is
stopped and a success envelope returned. -/
def stopProvider (reg : Registry) (id : String) : Envelope :=
  match getTaskById reg id with
  | none => { success := true, msg := some "conversation not found" }
  | some task =>
    if task.ttype ≠ "gemini" ∧ task.ttype ≠ "acp" ∧ task.ttype ≠ "codex" then
      { success := false, msg := some "not support" }
    else
      { success := true, msg := none }

/-- The conversation.sendMessage provider: resolve or rebuild the task; a
missing task (after a failed rebuild) yields a failure envelope; otherwise
dispatch by task type, catching a dispatch failure into a failure envelope.
The dispatch outcome is abstracted by the dispatchOk flag. -/
def sendMessageProvider (reg : Registry) (stored : Option String) (id : String)
    (dispatchOk : Bool) : Envelope × Registry :=
  match getTaskByIdRollbackBuild reg stored id with
  | (none, reg1) => ({ success := false, msg := some "conversation not found" }, reg1)
  | (some task, reg1) =>
    if task.ttype = "gemini" ∨ task.ttype = "acp" ∨ task.ttype = "codex" then
      if dispatchOk then ({ success := true, msg := none }, reg1)
      else ({ success := false, msg := some "send failed" }, reg1)
    else
      ({ success := false, msg := some ("Unsupported task type: " ++ task.ttype) }, reg1)

/-- A partial conversation update as passed to the update provider; the bound
model descriptor is abstracted to its serialized form, matching the
JSON.stringify comparison in the provider. -/
structure ConversationPatch where
  model : Option String
  name : Option String
  deriving DecidableEq, Repr

/-- The conversation.update provider: read the stored model (none when the
read fails or no model is stored, matching JSON.stringify of undefined),
detect a model change by serialized comparison, apply the store update
(outcome abstracted by updateOk), and if the update succeeded and the model
changed, kill the running task so the next send rebuilds it; the store
update outcome is returned. -/
def updateProvider (prevModel : Option String) (updateOk : Bool) (reg : Registry)
    (id : String) (patch : ConversationPatch) : Bool × Registry :=
  let modelChanged : Bool := patch.model.isSome && decide (prevModel ≠ patch.model)
  let reg1 := if updateOk && modelChanged then killTask reg id else reg
  (updateOk, reg1)

/-- Modelled from the spec: resolving a pending confirmation slot
(BaseAgentManager.postMessagePromise, not part of the sources here).  A
known callId resolves and clears exactly that slot; an unknown or
already-resolved callId leaves the table untouched and yields an error value
that the bridge provider catches. -/
def confirmResolve (pending : List String) (callId : String) :
    Except String (List String) :=
  if callId ∈ pending then Except.ok (pending.filter (fun c => !(c == callId)))
  else Except.error "no pending confirmation for callId"

/-- The conversation.confirmMessage provider: a missing task yields a failure
envelope; for a supported task type the confirmation is resolved, with any
error caught into a failure envelope (the provider never raises); an
unsupported type yields a failure envelope. -/
def confirmMessageProvider (reg : Registry) (pending : List String) (id : String)
    (callId : String) : Envelope × List String :=
  match getTaskById reg id with
  | none => ({ success := false, msg := some "conversation not found" }, pending)
  | some task =>
    if task.ttype = "codex" ∨ task.ttype = "gemini" ∨ task.ttype = "acp" then
      match confirmResolve pending callId with
      | Except.ok pending1 => ({ success := true, msg := none }, pending1)
      | Except.error m => ({ success := false, msg := some m }, pending)
    else
      ({ success := false, msg := some ("Unsupported task type: " ++ task.ttype) }, pending)

/-! ## Tool-completion continuation (GeminiAgent.initToolScheduler / submitQuery) -/

/-- A tool call of one batch as seen at onAllToolCallsComplete: correlation
id, owning prompt id, whether the request was client-initiated, the call
status and the optional response payload. -/
structure ToolCallRec where
  callId : String
  prompt_id : String
  isClientInitiated : Bool
  status : String
  responseParts : Option String
  deriving DecidableEq, Repr

/-- The geminiTools filter of onAllToolCallsComplete: a terminal status
(success, error or cancelled) with a defined response payload and not
client-initiated. -/
def geminiToolsFilter (tc : ToolCallRec) : Bool :=
  let isTerminalState := tc.status == "success" || tc.status == "error" || tc.status == "cancelled"
  if isTerminalState then tc.responseParts.isSome && !tc.isClientInitiated
  else false

/-- Modelled from the spec: the selection applied by handleCompletedTools
(utils module, not part of the sources here): completed, non-cancelled,
non-client-initiated calls that produced response payloads. -/
def completedForResubmission (tc : ToolCallRec) : Bool :=
  (tc.status == "success" || tc.status == "error") &&
    tc.responseParts.isSome && !tc.isClientInitiated

/-- Modelled from the spec: handleCompletedTools collects the response
payloads of the calls selected for resubmission. -/
def handleCompletedTools (calls : List ToolCallRec) : List String :=
  (calls.filter completedForResubmission).filterMap (fun tc => tc.responseParts)

/-- A resubmission of tool responses into the model stream. -/
structure Resubmission where
  payload : List String
  prompt_id : String
  isContinuation : Bool
  deriving DecidableEq, Repr

/-- Outcome of the completion callback: nothing to do, a resubmission, or an
error event when the callback itself failed and was caught. -/
inductive CompleteAction where
  | noop
  | resubmit (r : Resubmission)
  | errorEvent (text : String)
  deriving DecidableEq, Repr

/-- GeminiAgent.initToolScheduler onAllToolCallsComplete: when the batch is
non-empty and handleCompletedTools produced responses, the responses are
resubmitted under the prompt id of the first geminiTools-filtered call and
marked as a continuation; reading that prompt id from an empty filtered list
throws, which the surrounding try converts into an error event. -/
def onAllToolCallsComplete (calls : List ToolCallRec) : CompleteAction :=
  if calls.length > 0 then
    let response := handleCompletedTools calls
    if response.length > 0 then
      match calls.filter geminiToolsFilter with
      | [] => CompleteAction.errorEvent "handleCompletedTools error"
      | t0 :: _ =>
        CompleteAction.resubmit
          { payload := response, prompt_id := t0.prompt_id, isContinuation := true }
    else CompleteAction.noop
  else CompleteAction.noop

/-- Options passed to GeminiAgent.submitQuery. -/
structure SubmitOpts where
  prompt_id : Option String
  isContinuation : Bool
  deriving DecidableEq, Repr

/-- Prompt bookkeeping of GeminiAgent.submitQuery: reuse the prompt id given
in the options, otherwise derive a fresh one from the session id and the
prompt counter; startNewPrompt is invoked (second component true) only when
the submission is not marked a continuation. -/
def submitPromptBookkeeping (sessionId : String) (promptCount : Nat)
    (opts : Option SubmitOpts) : String × Bool :=
  let prompt_id :=
    match opts.bind (fun o => o.prompt_id) with
    | some p => p
    | none => sessionId ++ "########" ++ toString promptCount
  let startedNewPrompt := !((opts.map (fun o => o.isContinuation)).getD false)
  (prompt_id, startedNewPrompt)

/-! ## The event trace of one query submission (GeminiAgent.submitQuery) -/

/-- One event delivered by the model stream before it ends. -/
structure StreamItem where
  etype : String
  edata : String
  deriving DecidableEq, Repr

/-- An abstract run of the model stream: the items delivered to the event
callback and an optional failure of stream processing or tool scheduling. -/
structure StreamRun where
  items : List StreamItem
  failure : Option String
  deriving DecidableEq, Repr

/-- An event emitted through onStreamEvent. -/
structure Emitted where
  etype : String
  edata : String
  msg_id : String
  deriving DecidableEq, Repr

/-- Modelled from the spec: the event kinds that processGeminiStreamEvents
(utils module, not part of the sources here) can deliver to its callback;
the start and finish kinds are synthesized only by submitQuery itself. -/
def streamDerivedKinds : List String :=
  ["content", "thought", "error", "tool_group", "tool_call_request"]

/-- GeminiAgent.handleMessage: every stream item is forwarded to onStreamEvent
tagged with the submission message id, except tool_call_request items, which
are collected for the scheduler instead; a failure of stream processing or
scheduling is caught and converted into one error-typed event. -/
def handleMessageEmits (run : StreamRun) (msg_id : String) : List Emitted :=
  (run.items.filter (fun it => !(it.etype == "tool_call_request"))).map
      (fun it => { etype := it.etype, edata := it.edata, msg_id := msg_id }) ++
    (match run.failure with
     | some m => [{ etype := "error", edata := m, msg_id := msg_id }]
     | none => [])

/-- GeminiAgent.submitQuery event emission: a synchronous setup failure emits
a single error event and nothing else; otherwise one start event is emitted
right after the stream is created, the stream-derived events follow through
handleMessage (whose failures are caught into an error event), and the
finally clause emits one finish event after processing ends. -/
def submitQueryEmits (setupError : Option String) (run : StreamRun) (msg_id : String) :
    List Emitted :=
  match setupError with
  | some m => [{ etype := "error", edata := m, msg_id := msg_id }]
  | none =>
    ({ etype := "start", edata := "", msg_id := msg_id } : Emitted) ::
      handleMessageEmits run msg_id ++
        [{ etype := "finish", edata := "", msg_id := msg_id }]

/-! ## Concurrent rebuild de-duplication (registry in-flight build cache)

Modelled from the spec: the registry module is not part of the sources here.
The spec requires an in-flight-build cache keyed by conversation id that
collapses concurrent rebuilds, so that concurrent callers of
getTaskByIdRollbackBuild for the same unbuilt id observe exactly one build.
Distinct ids are fully independent, so the model fixes one id and two
concurrent callers; tasks are numbered by creation order so that the number
of live task instances ever created is observable. -/

/-- Program counter of one caller of getTaskByIdRollbackBuild. -/
inductive CallerPC where
  | ready
  | awaitingBuild (b : Nat)
  | got (t : Nat)
  deriving DecidableEq, Repr

/-- State of the registry for one conversation id, together with the two
callers: the registered live task, the in-flight build, how many task
instances were ever created, and the caller program counters. -/
structure RegistryState where
  task : Option Nat
  inflight : Option Nat
  buildCount : Nat
  pc1 : CallerPC
  pc2 : CallerPC
  deriving DecidableEq, Repr

/-- Scheduling labels: let one of the callers take its next atomic section,
or let the in-flight build complete and register its task. -/
inductive SchedLabel where
  | caller1
  | caller2
  | buildCompletes
  deriving DecidableEq, Repr, Fintype

/-- Modelled from the spec: one atomic section of a caller.  A ready caller
returns the registered task if present, otherwise awaits an already
in-flight build if present, otherwise starts a fresh build and records it in
the in-flight cache; a caller awaiting build b resumes once that build has
registered its task. -/
def callerStep (task : Option Nat) (inflight : Option Nat) (buildCount : Nat)
    (pc : CallerPC) : Option Nat × Nat × CallerPC :=
  match pc with
  | CallerPC.ready =>
    match task with
    | some t => (inflight, buildCount, CallerPC.got t)
    | none =>
      match inflight with
      | some b => (some b, buildCount, CallerPC.awaitingBuild b)
      | none => (some buildCount, buildCount + 1, CallerPC.awaitingBuild buildCount)
  | CallerPC.awaitingBuild b =>
    match task with
    | some t => if t = b then (inflight, buildCount, CallerPC.got t) else (inflight, buildCount, pc)
    | none => (inflight, buildCount, pc)
  | CallerPC.got t => (inflight, buildCount, CallerPC.got t)

/-- One scheduled step of the whole system. -/
def regStep (s : RegistryState) (l : SchedLabel) : RegistryState :=
  match l with
  | SchedLabel.caller1 =>
    let r := callerStep s.task s.inflight s.buildCount s.pc1
    { s with inflight := r.1, buildCount := r.2.1, pc1 := r.2.2 }
  | SchedLabel.caller2 =>
    let r := callerStep s.task s.inflight s.buildCount s.pc2
    { s with inflight := r.1, buildCount := r.2.1, pc2 := r.2.2 }
  | SchedLabel.buildCompletes =>
    match s.inflight with
    | some b => { s with task := some b, inflight := none }
    | none => s

/-- Initial state: nothing registered, nothing in flight, both callers about
to request a rebuild of the same not-yet-built id. -/
def regInit : RegistryState :=
  { task := none, inflight := none, buildCount := 0,
    pc1 := CallerPC.ready, pc2 := CallerPC.ready }

/-- Run the system under a schedule. -/
def runSched (sched : List SchedLabel) : RegistryState :=
  sched.foldl regStep regInit

/-- The set of states reachable from regInit, found by exploration and
checked exhaustively below: before any build only the initial state exists;
while the single build is in flight each caller is either still ready or
awaiting that build; once the build has registered its task each caller is
ready, awaiting the completed build, or holding the single task instance. -/
def regReachable : List RegistryState :=
  [{ task := none, inflight := none, buildCount := 0,
     pc1 := CallerPC.ready, pc2 := CallerPC.ready },
   { task := none, inflight := some 0, buildCount := 1,
     pc1 := CallerPC.awaitingBuild 0, pc2 := CallerPC.ready },
   { task := none, inflight := some 0, buildCount := 1,
     pc1 := CallerPC.ready, pc2 := CallerPC.awaitingBuild 0 },
   { task := none, inflight := some 0, buildCount := 1,
     pc1 := CallerPC.awaitingBuild 0, pc2 := CallerPC.awaitingBuild 0 },
   { task := some 0, inflight := none, buildCount := 1,
     pc1 := CallerPC.ready, pc2 := CallerPC.ready },
   { task := some 0, inflight := none, buildCount := 1,
     pc1 := CallerPC.ready, pc2 := CallerPC.awaitingBuild 0 },
   { task := some 0, inflight := none, buildCount := 1,
     pc1 := CallerPC.ready, pc2 := CallerPC.got 0 },
   { task := some 0, inflight := none, buildCount := 1,
     pc1 := CallerPC.awaitingBuild 0, pc2 := CallerPC.ready },
   { task := some 0, inflight := none, buildCount := 1,
     pc1 := CallerPC.awaitingBuild 0, pc2 := CallerPC.awaitingBuild 0 },
   { task := some 0, inflight := none, buildCount := 1,
     pc1 := CallerPC.awaitingBuild 0, pc2 := CallerPC.got 0 },
   { task := some 0, inflight := none, buildCount := 1,
     pc1 := CallerPC.got 0, pc2 := CallerPC.ready },
   { task := some 0, inflight := none, buildCount := 1,
     pc1 := CallerPC.got 0, pc2 := CallerPC.awaitingBuild 0 },
   { task := some 0, inflight := none, buildCount := 1,
     pc1 := CallerPC.got 0, pc2 := CallerPC.got 0 }]

/-- A caller that has obtained a task holds the unique task instance, and it
is the registered one. -/
def goodPcB (task : Option Nat) (pc : CallerPC) : Bool :=
  match pc with
  | CallerPC.got t => (t == 0) && (task == some 0)
  | _ => true

/-! ## Helper lemmas -/

/-- Killing a task removes the registry entry under that id. -/
theorem getTaskById_killTask (reg : Registry) (id : String) :
    getTaskById (killTask reg id) id = none := by
  unfold getTaskById killTask
  have h : List.find? (fun p => p.1 == id) (reg.filter (fun p => !(p.1 == id))) = none := by
    rw [List.find?_eq_none]
    intro x hx
    have hmem := List.mem_filter.mp hx
    simpa using hmem.2
  rw [h]
  rfl

/-- Appending a final element makes it the last of the list. -/
theorem getLast_append_singleton {α : Type} (xs : List α) (a : α) :
    (xs.append [a]).getLast? = some a := by
  rw [List.append_eq]
  exact List.getLast?_concat _

/-- A resolved confirmation slot is no longer in the pending table. -/
theorem not_mem_confirm_filter (pending : List String) (callId : String) :
    callId ∉ pending.filter (fun c => !(c == callId)) := by
  intro h
  have hmem := (List.mem_filter.mp h).2
  simp at hmem

/-! ## Claim theorems -/

/-- Claim C3: for every list of stored messages, the history text injected at
bootstrap (and on reloadContext, which runs the same computation) has length
at most 4000 characters, and it is built from at most the last 20 text-typed
messages: it depends only on that window. -/
theorem injectHistory_bounded_window (msgs msgs2 : List StoredMessage) :
    (injectHistoryText msgs).length ≤ 4000 ∧
    (sliceLastN 20 (msgs.filter (fun m => m.mtype == "text")) =
        sliceLastN 20 (msgs2.filter (fun m => m.mtype == "text")) →
      injectHistoryText msgs = injectHistoryText msgs2) := by
  constructor
  · show (strSliceLast 4000 _).length ≤ 4000
    unfold strSliceLast
    show (List.drop _ _).length ≤ 4000
    rw [List.length_drop]
    omega
  · intro h
    unfold injectHistoryText
    rw [h]

/-- Claim C3 witness: a three-message store where only two messages are
text-typed injects the same history as its text-only window. -/
theorem injectHistory_bounded_window_witness :
    injectHistoryText
        [{ mtype := "text", position := "right", content := "hi" },
         { mtype := "image", position := "left", content := "pic" },
         { mtype := "text", position := "left", content := "hello" }] =
      injectHistoryText
        [{ mtype := "text", position := "right", content := "hi" },
         { mtype := "text", position := "left", content := "hello" }] :=
  (injectHistory_bounded_window
      [{ mtype := "text", position := "right", content := "hi" },
       { mtype := "image", position := "left", content := "pic" },
       { mtype := "text", position := "left", content := "hello" }]
      [{ mtype := "text", position := "right", content := "hi" },
       { mtype := "text", position := "left", content := "hello" }]).2 (by decide)

/-- Claim C8: an update whose patch carries a model different from the stored
one and whose store update succeeds kills the live task registered under the
id (the registry lookup then misses, so the next send rebuilds under the new
model), while an update that does not change the model leaves the registry
untouched. -/
theorem update_modelChange_killsTask (prevModel : Option String) (updateOk : Bool)
    (reg : Registry) (id : String) (patch : ConversationPatch) :
    ((∃ nm, patch.model = some nm ∧ prevModel ≠ some nm) → updateOk = true →
        (updateProvider prevModel updateOk reg id patch).1 = true ∧
        getTaskById (updateProvider prevModel updateOk reg id patch).2 id = none) ∧
    ((patch.model = none ∨ patch.model = prevModel) →
        (updateProvider prevModel updateOk reg id patch).2 = reg) := by
  constructor
  · rintro ⟨nm, hm, hne⟩ hok
    subst hok
    refine ⟨rfl, ?_⟩
    have h2 : (updateProvider prevModel true reg id patch).2 = killTask reg id := by
      simp [updateProvider, hm, hne]
    rw [h2]
    exact getTaskById_killTask reg id
  · intro hsame
    rcases hsame with hnone | heq
    · simp [updateProvider, hnone]
    · simp [updateProvider, ← heq]

/-- Claim C8 witness: updating a conversation with a different model while it
has a live gemini task succeeds and leaves no task registered under the id. -/
theorem update_modelChange_killsTask_witness :
    (updateProvider (some "m1") true [("c1", { ttype := "gemini" })] "c1"
        { model := some "m2", name := none }).1 = true ∧
    getTaskById (updateProvider (some "m1") true [("c1", { ttype := "gemini" })] "c1"
        { model := some "m2", name := none }).2 "c1" = none :=
  (update_modelChange_killsTask (some "m1") true [("c1", { ttype := "gemini" })] "c1"
      { model := some "m2", name := none }).1 ⟨"m2", rfl, by decide⟩ rfl

/-- Claim C9: for a conversation id with no registered live task, the stop
provider answers with a success envelope even though nothing was cancelled,
whereas the sendMessage provider, whose rebuild also fails (no stored
conversation), answers with a failure envelope for the same condition. -/
theorem stop_success_sendMessage_failure_on_missing_task (reg : Registry) (id : String)
    (dispatchOk : Bool) (h : getTaskById reg id = none) :
    stopProvider reg id = { success := true, msg := some "conversation not found" } ∧
    (sendMessageProvider reg none id dispatchOk).1 =
      { success := false, msg := some "conversation not found" } := by
  constructor
  · simp [stopProvider, h]
  · simp [sendMessageProvider, getTaskByIdRollbackBuild, h]

/-- Claim C9 witness: on an empty registry, stop returns success and
sendMessage returns failure for the same id. -/
theorem stop_success_sendMessage_failure_witness :
    stopProvider [] "c1" = { success := true, msg := some "conversation not found" } ∧
    (sendMessageProvider [] none "c1" true).1 =
      { success := false, msg := some "conversation not found" } :=
  stop_success_sendMessage_failure_on_missing_task [] "c1" true (by decide)

/-- Claim C7: confirming with an unknown, stale or already-resolved callId on
a live gemini task is a harmless no-op: the provider returns a failure
envelope (never an exception, the provider is a total function into
envelopes) and leaves the pending table untouched, and a second confirm for
the same callId has no further effect on the pending table. -/
theorem confirm_unknown_callId_noop (reg : Registry) (pending : List String)
    (id : String) (callId : String) (task : WTask)
    (hreg : getTaskById reg id = some task) (htype : task.ttype = "gemini") :
    (callId ∉ pending →
        confirmMessageProvider reg pending id callId =
          ({ success := false, msg := some "no pending confirmation for callId" }, pending)) ∧
    (confirmMessageProvider reg
        (confirmMessageProvider reg pending id callId).2 id callId).2 =
      (confirmMessageProvider reg pending id callId).2 := by
  have hsupported : task.ttype = "codex" ∨ task.ttype = "gemini" ∨ task.ttype = "acp" :=
    Or.inr (Or.inl htype)
  constructor
  · intro hmem
    simp [confirmMessageProvider, hreg, hsupported, confirmResolve, hmem]
  · by_cases hmem : callId ∈ pending
    · have h1 : (confirmMessageProvider reg pending id callId).2 =
          pending.filter (fun c => !(c == callId)) := by
        simp [confirmMessageProvider, hreg, hsupported, confirmResolve, hmem]
      rw [h1]
      simp [confirmMessageProvider, hreg, hsupported, confirmResolve,
        not_mem_confirm_filter pending callId]
    · simp [confirmMessageProvider, hreg, hsupported, confirmResolve, hmem]

/-- Claim C7 witness: confirming an unregistered callId on a live gemini task
returns a failure envelope and leaves the single pending slot untouched. -/
theorem confirm_unknown_callId_noop_witness :
    confirmMessageProvider [("c1", { ttype := "gemini" })] ["call-a"] "c1" "call-b" =
      ({ success := false, msg := some "no pending confirmation for callId" }, ["call-a"]) :=
  (confirm_unknown_callId_noop [("c1", { ttype := "gemini" })] ["call-a"] "c1" "call-b"
      { ttype := "gemini" } (by decide) rfl).1 (by decide)

/-- Claim C4: for every backend-emitted event received by the interceptor,
the task status is updated as a function of the event type (start sets
running, finish sets finished, an unhandled error sets error, any other type
leaves it unchanged), and the status update is the first emitted action
while the event is republished last, unchanged except for the conversation
id annotation. -/
theorem intercept_status_before_republish (cid : String) (s : ChatStatus) (e : Ev) :
    (e.etype = "start" → (handleGeminiMessage cid s e).1 = ChatStatus.running) ∧
    (e.etype = "finish" → (handleGeminiMessage cid s e).1 = ChatStatus.finished) ∧
    (e.etype = "error" → (handleGeminiMessage cid s e).1 = ChatStatus.error) ∧
    (e.etype ≠ "start" → e.etype ≠ "finish" → e.etype ≠ "error" →
        (handleGeminiMessage cid s e).1 = s) ∧
    ∃ rest, (handleGeminiMessage cid s e).2 =
        Action.setStatus (handleGeminiMessage cid s e).1 :: rest ∧
      rest.getLast? = some (Action.streamEvent { e with conversation_id := some cid }) := by
  refine ⟨?_, ?_, ?_, ?_, ?_⟩
  · intro h
    simp [handleGeminiMessage, interceptStatus, baseInterceptStatus, geminiInterceptStatus, h]
  · intro h
    simp [handleGeminiMessage, interceptStatus, baseInterceptStatus, geminiInterceptStatus, h]
  · intro h
    simp [handleGeminiMessage, interceptStatus, baseInterceptStatus, geminiInterceptStatus, h]
  · intro h1 h2 h3
    simp [handleGeminiMessage, interceptStatus, baseInterceptStatus, geminiInterceptStatus,
      h1, h2, h3]
  · exact ⟨_, rfl, getLast_append_singleton _ _⟩

/-- Claim C4 witness: a start event on a pending task sets status running. -/
theorem intercept_status_before_republish_witness :
    (handleGeminiMessage "c1" ChatStatus.pending
        { etype := "start", edata := "", msg_id := "m1", conversation_id := none }).1 =
      ChatStatus.running :=
  (intercept_status_before_republish "c1" ChatStatus.pending
      { etype := "start", edata := "", msg_id := "m1", conversation_id := none }).1 rfl

/-- Claim C5 counterexample: a start event is not of the transient thought
kind, yet the handler persists nothing for it, so persistence does not hold
if and only if the kind differs from thought. -/
theorem persist_iff_thought_counterexample :
    ((handleGeminiMessage "c1" ChatStatus.pending
          { etype := "start", edata := "", msg_id := "m1", conversation_id := none }).2.filter
        isPersistAction) = [] ∧
      ("start" : String) ≠ "thought" := by
  decide

/-- Claim C5 (amended): an event is transformed into a message and upserted,
keyed by the conversation id and the event message id, if and only if its
kind is neither the transient thought kind nor one of the status-only start
and finish kinds (which yield no message); thought events are never
persisted. -/
theorem persist_iff_not_transient (cid : String) (s : ChatStatus) (e : Ev) :
    (e.etype ≠ "thought" ∧ e.etype ≠ "start" ∧ e.etype ≠ "finish" →
      ∃ m, ((handleGeminiMessage cid s e).2.filter isPersistAction) =
          [Action.persistMessage cid m] ∧ m.id = e.msg_id) ∧
    (e.etype = "thought" ∨ e.etype = "start" ∨ e.etype = "finish" →
      ((handleGeminiMessage cid s e).2.filter isPersistAction) = []) := by
  constructor
  · rintro ⟨h1, h2, h3⟩
    refine ⟨{ id := e.msg_id, mtype := e.etype, conversation_id := cid, content := e.edata },
      ?_, rfl⟩
    simp [handleGeminiMessage, transformMessage, isPersistAction, h1, h2, h3]
  · rintro (h | h | h) <;>
      simp [handleGeminiMessage, transformMessage, isPersistAction, h]

/-- Claim C5 (amended) witness: an error event is persisted under its own
message id. -/
theorem persist_iff_not_transient_witness :
    ∃ m, ((handleGeminiMessage "c1" ChatStatus.pending
          { etype := "error", edata := "boom", msg_id := "m1",
            conversation_id := none }).2.filter isPersistAction) =
        [Action.persistMessage "c1" m] ∧ m.id = "m1" :=
  (persist_iff_not_transient "c1" ChatStatus.pending
      { etype := "error", edata := "boom", msg_id := "m1", conversation_id := none }).1
    (by refine ⟨?_, ?_, ?_⟩ <;> decide)

/-- Claim C2: on a send whose bootstrap promise rejects, the task emits
exactly one error-typed stream event, carrying that send message id, and the
caller promise is rejected only after the error message has been persisted
locally: the single rejection action sits strictly after the persistence of
the error message in the emitted action trace. -/
theorem bootstrapFailure_one_error_event_before_reject (cid msg_id errText : String) :
    ((sendMessageBootstrapFailure cid msg_id errText).filter isErrorStreamEvent =
        [Action.streamEvent
          { etype := "error", edata := errText, msg_id := msg_id,
            conversation_id := some cid }]) ∧
    ∃ pre post,
      sendMessageBootstrapFailure cid msg_id errText = pre ++ Action.rejectCaller :: post ∧
      Action.rejectCaller ∉ pre ∧
      ∃ m, Action.persistMessage cid m ∈ pre ∧ m.id = msg_id ∧ m.mtype = "error" := by
  constructor
  · simp [sendMessageBootstrapFailure, handleGeminiMessage, transformMessage,
      interceptStatus, baseInterceptStatus, geminiInterceptStatus, isErrorStreamEvent]
  · refine ⟨[Action.persistUser msg_id, Action.setStatus ChatStatus.pending,
        Action.setStatus ChatStatus.error,
        Action.persistMessage cid
          { id := msg_id, mtype := "error", conversation_id := cid, content := errText },
        Action.streamEvent
          { etype := "error", edata := errText, msg_id := msg_id,
            conversation_id := some cid },
        Action.localFlush], [], ?_, ?_, ?_⟩
    · simp [sendMessageBootstrapFailure, handleGeminiMessage, transformMessage,
        interceptStatus, baseInterceptStatus, geminiInterceptStatus]
    · simp
    · exact ⟨{ id := msg_id, mtype := "error", conversation_id := cid, content := errText },
        by simp, rfl, rfl⟩

/-- Every call selected for resubmission also passes the geminiTools filter. -/
theorem completed_implies_geminiFilter (tc : ToolCallRec) :
    completedForResubmission tc = true → geminiToolsFilter tc = true := by
  intro h
  simp only [completedForResubmission, Bool.and_eq_true, Bool.or_eq_true, beq_iff_eq] at h
  obtain ⟨⟨hor, hsome⟩, hcl⟩ := h
  simp only [geminiToolsFilter]
  rcases hor with h1 | h1 <;> simp [h1, hsome, hcl]

/-- When some call is selected for resubmission, handleCompletedTools yields
at least one response payload. -/
theorem handleCompletedTools_ne_nil (calls : List ToolCallRec)
    (h : calls.filter completedForResubmission ≠ []) :
    handleCompletedTools calls ≠ [] := by
  obtain ⟨tc, htc⟩ := List.exists_mem_of_ne_nil _ h
  have hmem := List.mem_filter.mp htc
  have hsome : tc.responseParts.isSome = true := by
    have hsel := hmem.2
    simp only [completedForResubmission, Bool.and_eq_true] at hsel
    exact hsel.1.2
  obtain ⟨r, hr⟩ := Option.isSome_iff_exists.mp hsome
  intro hcon
  have hrmem : r ∈ handleCompletedTools calls :=
    List.mem_filterMap.mpr ⟨tc, htc, hr⟩
  rw [hcon] at hrmem
  exact (List.not_mem_nil r) hrmem

/-- Claim C6: when all tool calls of a batch (all belonging to one prompt)
complete and at least one call is completed, non-cancelled,
non-client-initiated and produced a response payload, exactly the responses
of those calls are resubmitted, the resubmission reuses the prompt id of the
batch and is marked a continuation, and submitQuery therefore does not start
a new user turn for it. -/
theorem toolCompletion_resubmits_continuation (calls : List ToolCallRec) (p : String)
    (sessionId : String) (promptCount : Nat)
    (hp : ∀ tc ∈ calls, tc.prompt_id = p)
    (hne : calls.filter completedForResubmission ≠ []) :
    ∃ r, onAllToolCallsComplete calls = CompleteAction.resubmit r ∧
      r.payload =
        (calls.filter completedForResubmission).filterMap (fun tc => tc.responseParts) ∧
      r.prompt_id = p ∧
      r.isContinuation = true ∧
      submitPromptBookkeeping sessionId promptCount
          (some { prompt_id := some r.prompt_id, isContinuation := true }) =
        (p, false) := by
  have hcalls : calls.length > 0 := by
    cases calls with
    | nil => simp at hne
    | cons a l => simp
  have hresplen : (handleCompletedTools calls).length > 0 :=
    List.length_pos.mpr (handleCompletedTools_ne_nil calls hne)
  obtain ⟨tc, htc⟩ := List.exists_mem_of_ne_nil _ hne
  have htcg : tc ∈ calls.filter geminiToolsFilter := by
    have hmem := List.mem_filter.mp htc
    exact List.mem_filter.mpr ⟨hmem.1, completed_implies_geminiFilter tc hmem.2⟩
  cases hg : calls.filter geminiToolsFilter with
  | nil => rw [hg] at htcg; exact absurd htcg (List.not_mem_nil tc)
  | cons t0 rest =>
    have ht0 : t0 ∈ calls := by
      have ht0f : t0 ∈ calls.filter geminiToolsFilter := by
        rw [hg]; exact List.mem_cons_self t0 rest
      exact List.mem_of_mem_filter ht0f
    have hpid : t0.prompt_id = p := hp t0 ht0
    refine ⟨{ payload := handleCompletedTools calls, prompt_id := t0.prompt_id,
              isContinuation := true }, ?_, rfl, hpid, rfl, ?_⟩
    · unfold onAllToolCallsComplete
      rw [if_pos hcalls, if_pos hresplen, hg]
    · simp [submitPromptBookkeeping, hpid]

/-- Claim C6 witness: a batch with one successful server-initiated call with
a payload and one cancelled call resubmits exactly the successful payload as
a continuation of the batch prompt. -/
theorem toolCompletion_resubmits_continuation_witness :
    ∃ r, onAllToolCallsComplete
          [{ callId := "a", prompt_id := "p0", isClientInitiated := false,
             status := "success", responseParts := some "ra" },
           { callId := "b", prompt_id := "p0", isClientInitiated := false,
             status := "cancelled", responseParts := none }] =
        CompleteAction.resubmit r ∧
      r.payload =
        ([{ callId := "a", prompt_id := "p0", isClientInitiated := false,
            status := "success", responseParts := some "ra" },
          { callId := "b", prompt_id := "p0", isClientInitiated := false,
            status := "cancelled", responseParts := none }].filter
              completedForResubmission).filterMap (fun tc => tc.responseParts) ∧
      r.prompt_id = "p0" ∧
      r.isContinuation = true ∧
      submitPromptBookkeeping "session" 3
          (some { prompt_id := some r.prompt_id, isContinuation := true }) =
        ("p0", false) :=
  toolCompletion_resubmits_continuation
    [{ callId := "a", prompt_id := "p0", isClientInitiated := false,
       status := "success", responseParts := some "ra" },
     { callId := "b", prompt_id := "p0", isClientInitiated := false,
       status := "cancelled", responseParts := none }] "p0" "session" 3
    (by decide)
    (by decide)

/-- No event forwarded out of the model stream is of the start or finish
kind: those are synthesized only by submitQuery itself. -/
theorem handleMessage_no_start_finish (run : StreamRun) (msg_id : String)
    (hkinds : ∀ it ∈ run.items, it.etype ∈ streamDerivedKinds) :
    ∀ ev ∈ handleMessageEmits run msg_id, ev.etype ≠ "start" ∧ ev.etype ≠ "finish" := by
  intro ev hev
  unfold handleMessageEmits at hev
  rw [List.mem_append] at hev
  rcases hev with h | h
  · obtain ⟨it, hit, rfl⟩ := List.mem_map.mp h
    have hk := hkinds it (List.mem_of_mem_filter hit)
    have hcases : it.etype = "content" ∨ it.etype = "thought" ∨ it.etype = "error" ∨
        it.etype = "tool_group" ∨ it.etype = "tool_call_request" := by
      simpa [streamDerivedKinds] using hk
    rcases hcases with h1 | h1 | h1 | h1 | h1 <;> simp [h1]
  · cases hfail : run.failure with
    | none => rw [hfail] at h; simp at h
    | some m =>
      rw [hfail] at h
      simp only [List.mem_singleton] at h
      subst h
      refine ⟨?_, ?_⟩ <;> simp

/-- Claim C10: a query submission whose model stream was created emits
exactly one start event, placed before every stream-derived event (it is the
head of the emission trace), and exactly one finish event, placed after all
stream processing (it is the last emission) — also when stream processing
fails, in which case the caught error event is emitted before the final
finish event: a started turn never ends without a finish. -/
theorem submitQuery_start_finish_bracket (run : StreamRun) (msg_id : String)
    (hkinds : ∀ it ∈ run.items, it.etype ∈ streamDerivedKinds) :
    ((submitQueryEmits none run msg_id).head? =
        some { etype := "start", edata := "", msg_id := msg_id }) ∧
    ((submitQueryEmits none run msg_id).filter (fun ev => ev.etype == "start") =
        [{ etype := "start", edata := "", msg_id := msg_id }]) ∧
    ((submitQueryEmits none run msg_id).getLast? =
        some { etype := "finish", edata := "", msg_id := msg_id }) ∧
    ((submitQueryEmits none run msg_id).filter (fun ev => ev.etype == "finish") =
        [{ etype := "finish", edata := "", msg_id := msg_id }]) ∧
    (∀ m, run.failure = some m →
      ({ etype := "error", edata := m, msg_id := msg_id } : Emitted) ∈
        (submitQueryEmits none run msg_id).dropLast) := by
  have hmid := handleMessage_no_start_finish run msg_id hkinds
  have hmidstart : (handleMessageEmits run msg_id).filter
      (fun ev => ev.etype == "start") = [] := by
    rw [List.filter_eq_nil_iff]
    intro ev hev
    simpa using (hmid ev hev).1
  have hmidfinish : (handleMessageEmits run msg_id).filter
      (fun ev => ev.etype == "finish") = [] := by
    rw [List.filter_eq_nil_iff]
    intro ev hev
    simpa using (hmid ev hev).2
  refine ⟨rfl, ?_, ?_, ?_, ?_⟩
  · show List.filter _ (_ :: _ ++ _) = _
    rw [List.cons_append, List.filter_cons, List.filter_append, hmidstart]
    simp
  · show List.getLast? (_ ++ [_]) = _
    exact List.getLast?_concat _
  · show List.filter _ (_ :: _ ++ _) = _
    rw [List.cons_append, List.filter_cons, List.filter_append, hmidfinish]
    simp
  · intro m hm
    show _ ∈ List.dropLast (_ ++ [_])
    rw [List.dropLast_concat]
    refine List.mem_cons_of_mem _ ?_
    unfold handleMessageEmits
    rw [hm, List.mem_append]
    exact Or.inr (List.mem_singleton.mpr rfl)

/-- Claim C10 witness: a run delivering one content delta and then failing
emits the start event first, the caught error before the final finish, and
exactly one start and one finish. -/
theorem submitQuery_start_finish_bracket_witness :
    ((submitQueryEmits none
          { items := [{ etype := "content", edata := "hi" }], failure := some "boom" }
          "m1").head? =
        some { etype := "start", edata := "", msg_id := "m1" }) ∧
    ((submitQueryEmits none
          { items := [{ etype := "content", edata := "hi" }], failure := some "boom" }
          "m1").getLast? =
        some { etype := "finish", edata := "", msg_id := "m1" }) ∧
    ({ etype := "error", edata := "boom", msg_id := "m1" } : Emitted) ∈
      (submitQueryEmits none
          { items := [{ etype := "content", edata := "hi" }], failure := some "boom" }
          "m1").dropLast := by
  have h := submitQuery_start_finish_bracket
    { items := [{ etype := "content", edata := "hi" }], failure := some "boom" } "m1"
    (by decide)
  exact ⟨h.1, h.2.2.1, h.2.2.2.2 "boom" rfl⟩

/-- The reachable state set contains the initial state. -/
theorem regReachable_init : regInit ∈ regReachable := by decide

/-- The reachable state set is closed under every scheduled step. -/
theorem regReachable_closed :
    ∀ s ∈ regReachable, ∀ l, regStep s l ∈ regReachable := by decide

/-- Every schedule leaves the system inside the reachable state set. -/
theorem runSched_mem_regReachable (sched : List SchedLabel) :
    runSched sched ∈ regReachable := by
  suffices h : ∀ s, s ∈ regReachable → sched.foldl regStep s ∈ regReachable by
    exact h regInit regReachable_init
  induction sched with
  | nil => exact fun s hs => hs
  | cons l rest ih => exact fun s hs => ih (regStep s l) (regReachable_closed s hs l)

/-- Every reachable state has at most one build and consistent callers. -/
theorem regReachable_good :
    ∀ s ∈ regReachable, s.buildCount ≤ 1 ∧
      goodPcB s.task s.pc1 = true ∧ goodPcB s.task s.pc2 = true := by decide

/-- Claim C1: under every interleaving of two concurrent rebuild requests for
the same not-yet-built conversation id, at most one live task instance is
ever created and registered (the second caller awaits the first caller's
in-flight build instead of creating a second live task), and whenever both
callers have obtained a task they hold the same single instance, which is
the registered one. -/
theorem registry_single_build_dedup (sched : List SchedLabel) :
    (runSched sched).buildCount ≤ 1 ∧
    (∀ t1 t2, (runSched sched).pc1 = CallerPC.got t1 →
        (runSched sched).pc2 = CallerPC.got t2 →
        t1 = t2 ∧ (runSched sched).task = some t1) := by
  have hmem := runSched_mem_regReachable sched
  obtain ⟨hbc, hg1, hg2⟩ := regReachable_good (runSched sched) hmem
  refine ⟨hbc, ?_⟩
  intro t1 t2 h1 h2
  rw [h1] at hg1
  rw [h2] at hg2
  simp only [goodPcB, Bool.and_eq_true, beq_iff_eq] at hg1 hg2
  obtain ⟨ht1, htask1⟩ := hg1
  obtain ⟨ht2, _⟩ := hg2
  subst ht1
  subst ht2
  exact ⟨rfl, htask1⟩

/-- Claim C1 witness: a schedule where the first caller starts the build, the
build completes, and then both callers resume, ends with both callers
holding the same single registered task instance. -/
theorem registry_single_build_dedup_witness :
    (0 : Nat) = 0 ∧
      (runSched [SchedLabel.caller1, SchedLabel.buildCompletes,
          SchedLabel.caller1, SchedLabel.caller2]).task = some 0 :=
  (registry_single_build_dedup
      [SchedLabel.caller1, SchedLabel.buildCompletes,
       SchedLabel.caller1, SchedLabel.caller2]).2 0 0 (by decide) (by decide)

end AionUi
